import Mathlib

/-!
# Verification of the timewarp task-tracker core

Shallow embedding of the temporal-distortion timer (`FocusTimer`), the
task/session/achievement store (`useTaskStore`), and the procrastination
handler (`TaskManager.handleProcrastinate`).  JavaScript numbers are
modelled as rationals (all arithmetic the claims touch is exact), `Date`
timestamps as natural-number milliseconds, and each store operation as a
pure function on an explicit `TaskStore` state, with `new Date()` /
`uuidv4()` occurrences passed in as explicit parameters.
-/

namespace Timewarp

/-- Timer states of `FocusTimer` (`TIMER_STATES` in the source). -/
inductive TimerState where
  | idle
  | running
  | paused
  | completed
  | distorted
deriving DecidableEq, Repr

/-- The component-local state of `FocusTimer` that the tick effect reads
and writes: `timeRemaining`, `initialTime`, `timerState`,
`distortionLevel`. -/
structure TimerModel where
  timeRemaining : ℚ
  initialTime : ℚ
  timerState : TimerState
  distortionLevel : ℚ
deriving DecidableEq, Repr

/-- The `timeMultiplier` computation inside the tick interval callback of
`FocusTimer`: `1` unless the timer is in the distorted state, otherwise the
piecewise curve over the distortion level. -/
def timeMultiplier (state : TimerState) (distortionLevel : ℚ) : ℚ :=
  if state = TimerState.distorted then
    if distortionLevel < 30 then 1/2 + distortionLevel / 60
    else if distortionLevel < 60 then 1 + (distortionLevel - 30) / 30
    else if distortionLevel < 80 then 2 + (distortionLevel - 60) / 20
    else if distortionLevel < 95 then 3 + (distortionLevel - 80) / (15/2)
    else -1
  else 1

/-- One execution of the tick interval body of `FocusTimer` with real
elapsed time `elapsed` (seconds).  The interval only exists while the
timer state is `running` or `distorted`, so any other state is a no-op;
otherwise `timeRemaining` becomes `max 0 (prev - elapsed * m)` and the
state moves to `completed` when the new value reaches `0` from a positive
previous value. -/
def tick (elapsed : ℚ) (s : TimerModel) : TimerModel :=
  if s.timerState = TimerState.running ∨ s.timerState = TimerState.distorted then
    let m := timeMultiplier s.timerState s.distortionLevel
    let newValue := max 0 (s.timeRemaining - elapsed * m)
    let newState :=
      if newValue ≤ 0 ∧ 0 < s.timeRemaining then TimerState.completed else s.timerState
    { s with timeRemaining := newValue, timerState := newState }
  else s

/-! ## The store data model (`useTaskStore.ts`) -/

/-- `TaskStatus` from the store. -/
inductive TaskStatus where
  | pending
  | inProgress
  | completed
  | runningAway
deriving DecidableEq, Repr

/-- `FocusState` from the store; `takingBreak` embeds the string literal
for a break, which is a reserved word in Lean. -/
inductive FocusState where
  | idle
  | focus
  | takingBreak
  | distorted
deriving DecidableEq, Repr

/-- The random 3D `position` attached to a task at creation. -/
structure Position where
  x : ℚ
  y : ℚ
  z : ℚ
deriving DecidableEq, Repr

/-- `Task` from the store.  Timestamps are `Nat` milliseconds. -/
structure Task where
  id : String
  title : String
  description : String
  status : TaskStatus
  createdAt : Nat
  deadline : Option Nat
  completedAt : Option Nat
  lastWorkedOn : Option Nat
  timeSpent : ℚ
  importance : Nat
  procrastinationLevel : Nat
  position : Position
deriving DecidableEq, Repr

/-- `FocusSession` from the store. -/
structure FocusSession where
  id : String
  taskId : String
  startTime : Nat
  endTime : Option Nat
  duration : ℚ
  distortionLevel : ℚ
deriving DecidableEq, Repr

/-- `Achievement` from the store. -/
structure Achievement where
  id : String
  title : String
  description : String
  unlockedAt : Option Nat
  isUnlocked : Bool
deriving DecidableEq, Repr

/-- `ProductivityStats` from the store. -/
structure ProductivityStats where
  totalTasksCompleted : Nat
  totalTimeSpent : ℚ
  longestStreak : Nat
  currentStreak : Nat
  lastActiveDay : Option Nat
  achievements : List Achievement
deriving DecidableEq, Repr

/-- The state held by the zustand store. -/
structure TaskStore where
  tasks : List Task
  focusSessions : List FocusSession
  currentFocusState : FocusState
  currentSession : Option FocusSession
  productivityStats : ProductivityStats
  achievements : List Achievement
deriving DecidableEq, Repr

/-- `PREDEFINED_ACHIEVEMENTS` from the store. -/
def PREDEFINED_ACHIEVEMENTS : List Achievement :=
  [ { id := "first-task"
    , title := "Baby Steps"
    , description := "Created your first task. Congratulations on the bare minimum!"
    , unlockedAt := none
    , isUnlocked := false }
  , { id := "five-tasks-completed"
    , title := "Productivity Padawan"
    , description := "Completed 5 tasks. The force of productivity is starting to flow through you."
    , unlockedAt := none
    , isUnlocked := false }
  , { id := "procrastination-master"
    , title := "Procrastination Grand Master"
    , description := "Successfully avoided a task for so long it achieved sentience and ran away."
    , unlockedAt := none
    , isUnlocked := false }
  , { id := "time-bender"
    , title := "Time Lord"
    , description := "Spent over 4 hours in the time distortion zone without going insane."
    , unlockedAt := none
    , isUnlocked := false }
  , { id := "deadline-warrior"
    , title := "Deadline Warrior"
    , description := "Completed 3 tasks within 10 minutes of their deadlines. We call this efficient."
    , unlockedAt := none
    , isUnlocked := false } ]

/-- The initial store state built by `create(...)`. -/
def initialStore : TaskStore :=
  { tasks := []
  , focusSessions := []
  , currentFocusState := FocusState.idle
  , currentSession := none
  , productivityStats :=
      { totalTasksCompleted := 0
      , totalTimeSpent := 0
      , longestStreak := 0
      , currentStreak := 0
      , lastActiveDay := none
      , achievements := [] }
  , achievements := PREDEFINED_ACHIEVEMENTS }

/-! ## Store operations -/

/-- A `Partial<Task>` argument of `updateTask`: every field optional, and
for the fields that are themselves optional on `Task` a present entry may
still carry `none` (the JavaScript spread overwrites with `undefined`). -/
structure TaskPatch where
  id : Option String
  title : Option String
  description : Option String
  status : Option TaskStatus
  createdAt : Option Nat
  deadline : Option (Option Nat)
  completedAt : Option (Option Nat)
  lastWorkedOn : Option (Option Nat)
  timeSpent : Option ℚ
  importance : Option Nat
  procrastinationLevel : Option Nat
  position : Option Position
deriving DecidableEq, Repr

/-- The patch with no fields present. -/
def TaskPatch.empty : TaskPatch :=
  { id := none, title := none, description := none, status := none
  , createdAt := none, deadline := none, completedAt := none
  , lastWorkedOn := none, timeSpent := none, importance := none
  , procrastinationLevel := none, position := none }

/-- The spread `{ ...task, ...taskUpdate }` in `updateTask`. -/
def applyPatch (t : Task) (p : TaskPatch) : Task :=
  { id := p.id.getD t.id
  , title := p.title.getD t.title
  , description := p.description.getD t.description
  , status := p.status.getD t.status
  , createdAt := p.createdAt.getD t.createdAt
  , deadline := p.deadline.getD t.deadline
  , completedAt := p.completedAt.getD t.completedAt
  , lastWorkedOn := p.lastWorkedOn.getD t.lastWorkedOn
  , timeSpent := p.timeSpent.getD t.timeSpent
  , importance := p.importance.getD t.importance
  , procrastinationLevel := p.procrastinationLevel.getD t.procrastinationLevel
  , position := p.position.getD t.position }

/-- `updateAchievement(achievementId)` from the store; `now` stands for
the `new Date()` stored into `unlockedAt`.  Note that both `isUnlocked`
and `unlockedAt` are overwritten unconditionally for the matching id. -/
def updateAchievement (achievementId : String) (now : Nat) (s : TaskStore) : TaskStore :=
  { s with achievements := s.achievements.map fun a =>
      if a.id = achievementId then { a with isUnlocked := true, unlockedAt := some now } else a }

/-- `addTask(taskData)` from the store; `uuid`, `now` and `pos` stand for
the `uuidv4()`, `new Date()` and `Math.random()` position produced at the
call. -/
def addTask (title description : String) (importance : Nat) (deadline : Option Nat)
    (uuid : String) (now : Nat) (pos : Position) (s : TaskStore) : TaskStore :=
  let newTask : Task :=
    { id := uuid, title := title, description := description
    , status := TaskStatus.pending, createdAt := now, deadline := deadline
    , completedAt := none, lastWorkedOn := none, timeSpent := 0
    , importance := importance, procrastinationLevel := 0, position := pos }
  let s1 := { s with tasks := s.tasks ++ [newTask] }
  match s1.achievements.find? (fun a => a.id = "first-task") with
  | some a => if a.isUnlocked then s1 else updateAchievement "first-task" now s1
  | none => s1

/-- `updateTask(id, taskUpdate)` from the store. -/
def updateTask (id : String) (patch : TaskPatch) (s : TaskStore) : TaskStore :=
  { s with tasks := s.tasks.map fun t => if t.id = id then applyPatch t patch else t }

/-- `deleteTask(id)` from the store. -/
def deleteTask (id : String) (s : TaskStore) : TaskStore :=
  { s with tasks := s.tasks.filter fun t => t.id ≠ id }

/-- `completeTask(id)` from the store; `now` is the `new Date()` taken at
entry.  The five-tasks achievement check runs against the updated task
list; `totalTasksCompleted` is incremented unconditionally. -/
def completeTask (id : String) (now : Nat) (s : TaskStore) : TaskStore :=
  let updatedTasks := s.tasks.map fun t =>
    if t.id = id then { t with status := TaskStatus.completed, completedAt := some now } else t
  let completedCount := (updatedTasks.filter fun t => t.status = TaskStatus.completed).length
  let s1 :=
    if 5 ≤ completedCount then
      match s.achievements.find? (fun a => a.id = "five-tasks-completed") with
      | some a => if a.isUnlocked then s else updateAchievement "five-tasks-completed" now s
      | none => s
    else s
  { s1 with
    tasks := updatedTasks
  , productivityStats := { s1.productivityStats with
      totalTasksCompleted := s1.productivityStats.totalTasksCompleted + 1 } }

/-- `makeTaskRunAway(id)` from the store; unconditionally re-fires
`updateAchievement` for the procrastination achievement. -/
def makeTaskRunAway (id : String) (now : Nat) (s : TaskStore) : TaskStore :=
  let s1 := { s with tasks := s.tasks.map fun t =>
      if t.id = id then { t with status := TaskStatus.runningAway } else t }
  updateAchievement "procrastination-master" now s1

/-- `startFocusSession(taskId)` from the store: installs a fresh session
with `startTime = now` and `distortionLevel = 0` with no check of
whether a session is already active. -/
def startFocusSession (taskId : String) (uuid : String) (now : Nat) (s : TaskStore) : TaskStore :=
  let newSession : FocusSession :=
    { id := uuid, taskId := taskId, startTime := now, endTime := none
    , duration := 0, distortionLevel := 0 }
  { s with currentSession := some newSession, currentFocusState := FocusState.focus }

/-- `endFocusSession()` from the store; `now` is the `new Date()` taken at
entry, `duration` the real elapsed seconds.  Streak fields of
`productivityStats` are never touched. -/
def endFocusSession (now : Nat) (s : TaskStore) : TaskStore :=
  match s.currentSession with
  | none => s
  | some cs =>
    let duration : ℚ := ((now : ℚ) - (cs.startTime : ℚ)) / 1000
    let completedSession : FocusSession := { cs with endTime := some now, duration := duration }
    let s1 :=
      match s.tasks.find? (fun t => t.id = cs.taskId) with
      | some task => updateTask task.id
          { TaskPatch.empty with
            timeSpent := some (task.timeSpent + duration)
          , lastWorkedOn := some (some now) } s
      | none => s
    let s2 := { s1 with
      focusSessions := s1.focusSessions ++ [completedSession]
    , currentSession := none
    , currentFocusState := FocusState.idle
    , productivityStats := { s1.productivityStats with
        totalTimeSpent := s1.productivityStats.totalTimeSpent + duration } }
    if 75 < cs.distortionLevel ∧ 14400 < duration then
      updateAchievement "time-bender" now s2
    else s2

/-- `setDistortionLevel(level)` from the store: guarded on a session being
active; also flips `currentFocusState` on the 50 threshold. -/
def setDistortionLevel (level : ℚ) (s : TaskStore) : TaskStore :=
  match s.currentSession with
  | some cs =>
    { s with
      currentSession := some { cs with distortionLevel := level }
    , currentFocusState := if 50 < level then FocusState.distorted else FocusState.focus }
  | none => s

/-- `setFocusState(state)` from the store. -/
def setFocusState (st : FocusState) (s : TaskStore) : TaskStore :=
  { s with currentFocusState := st }

/-- `handleProcrastinate(taskId)` from `TaskManager.tsx`: bumps the
procrastination level by 20 (clamped at 100) or, when the new level would
reach 100, calls `makeTaskRunAway`. -/
def handleProcrastinate (taskId : String) (now : Nat) (s : TaskStore) : TaskStore :=
  match s.tasks.find? (fun t => t.id = taskId) with
  | none => s
  | some task =>
    let newProcrastinationLevel := min 100 (task.procrastinationLevel + 20)
    if 100 ≤ newProcrastinationLevel then makeTaskRunAway taskId now s
    else updateTask taskId
      { TaskPatch.empty with procrastinationLevel := some newProcrastinationLevel } s

/-! ## Shared concrete fixtures and helper predicates -/

/-- A fresh pending task, as `addTask` creates one. -/
def task1 : Task :=
  { id := "t1", title := "write report", description := "overdue already"
  , status := TaskStatus.pending, createdAt := 0, deadline := none
  , completedAt := none, lastWorkedOn := none, timeSpent := 0
  , importance := 3, procrastinationLevel := 0
  , position := { x := 0, y := 0, z := 0 } }

/-- The initial store holding the single fresh task `task1`. -/
def storeOneTask : TaskStore := { initialStore with tasks := [task1] }

/-- Look up an achievement by id in a store. -/
def getAchievement (s : TaskStore) (achievementId : String) : Option Achievement :=
  s.achievements.find? fun a => a.id = achievementId

/-- A task status is terminal when it is completed or running-away. -/
def IsTerminal (st : TaskStatus) : Prop :=
  st = TaskStatus.completed ∨ st = TaskStatus.runningAway

instance (st : TaskStatus) : Decidable (IsTerminal st) := by
  unfold IsTerminal; infer_instance

/-! ## C1: the distortion multiplier curve -/

/-- C1: while the timer is distorted, `tick` moves `timeRemaining` by
`elapsed * m(d)` (clamped below at 0), where the multiplier `m` is the
piecewise curve `0.5 + d/60` on `[0,30)`, `1 + (d-30)/30` on `[30,60)`,
`2 + (d-60)/20` on `[60,80)`, `3 + (d-80)/7.5` on `[80,95)` and `-1` on
`[95,100]`; `m` takes the exact values `m 0 = 0.5`, `m 30 = 1`,
`m 60 = 2`, `m 80 = 3`, `m 95 = -1`, `m 100 = -1`, and at each boundary
where adjacent pieces meet (30, 60, 80) the closed-form of the earlier
piece agrees with the value of `m` there. -/
theorem tick_applies_multiplier_curve :
    (∀ (s : TimerModel) (e : ℚ), s.timerState = TimerState.distorted →
      (tick e s).timeRemaining =
        max 0 (s.timeRemaining - e * timeMultiplier TimerState.distorted s.distortionLevel))
    ∧ (∀ d : ℚ, 0 ≤ d → d < 30 →
        timeMultiplier TimerState.distorted d = 1/2 + d / 60)
    ∧ (∀ d : ℚ, 30 ≤ d → d < 60 →
        timeMultiplier TimerState.distorted d = 1 + (d - 30) / 30)
    ∧ (∀ d : ℚ, 60 ≤ d → d < 80 →
        timeMultiplier TimerState.distorted d = 2 + (d - 60) / 20)
    ∧ (∀ d : ℚ, 80 ≤ d → d < 95 →
        timeMultiplier TimerState.distorted d = 3 + (d - 80) / (15/2))
    ∧ (∀ d : ℚ, 95 ≤ d → d ≤ 100 →
        timeMultiplier TimerState.distorted d = -1)
    ∧ timeMultiplier TimerState.distorted 0 = 1/2
    ∧ timeMultiplier TimerState.distorted 30 = 1
    ∧ timeMultiplier TimerState.distorted 60 = 2
    ∧ timeMultiplier TimerState.distorted 80 = 3
    ∧ timeMultiplier TimerState.distorted 95 = -1
    ∧ timeMultiplier TimerState.distorted 100 = -1
    ∧ (1/2 + (30:ℚ) / 60) = timeMultiplier TimerState.distorted 30
    ∧ (1 + ((60:ℚ) - 30) / 30) = timeMultiplier TimerState.distorted 60
    ∧ (2 + ((80:ℚ) - 60) / 20) = timeMultiplier TimerState.distorted 80 := by
  refine ⟨?_, ?_, ?_, ?_, ?_, ?_, ?_, ?_, ?_, ?_, ?_, ?_, ?_, ?_, ?_⟩
  · intro s e h
    simp [tick, h]
  · intro d _ h2
    simp [timeMultiplier, h2]
  · intro d h1 h2
    simp [timeMultiplier, h2, not_lt.mpr h1]
  · intro d h1 h2
    have n30 : ¬ d < 30 := not_lt.mpr (by linarith)
    have n60 : ¬ d < 60 := not_lt.mpr (by linarith)
    simp [timeMultiplier, h2, n30, n60]
  · intro d h1 h2
    have n30 : ¬ d < 30 := not_lt.mpr (by linarith)
    have n60 : ¬ d < 60 := not_lt.mpr (by linarith)
    have n80 : ¬ d < 80 := not_lt.mpr h1
    simp [timeMultiplier, h2, n30, n60, n80]
  · intro d h1 _
    have n30 : ¬ d < 30 := not_lt.mpr (by linarith)
    have n60 : ¬ d < 60 := not_lt.mpr (by linarith)
    have n80 : ¬ d < 80 := not_lt.mpr (by linarith)
    have n95 : ¬ d < 95 := not_lt.mpr h1
    simp [timeMultiplier, n30, n60, n80, n95]
  · norm_num [timeMultiplier]
  · norm_num [timeMultiplier]
  · norm_num [timeMultiplier]
  · norm_num [timeMultiplier]
  · norm_num [timeMultiplier]
  · norm_num [timeMultiplier]
  · norm_num [timeMultiplier]
  · norm_num [timeMultiplier]
  · norm_num [timeMultiplier]

/-- Witness for C1 at a concrete distorted timer (remaining 100,
distortion 40) ticked 6 real seconds, and the curve piece at 40. -/
theorem tick_applies_multiplier_curve_witness :
    ((tick 6 ⟨100, 1500, TimerState.distorted, 40⟩).timeRemaining =
      max 0 (100 - 6 * timeMultiplier TimerState.distorted 40))
    ∧ timeMultiplier TimerState.distorted 40 = 1 + ((40:ℚ) - 30) / 30 :=
  ⟨tick_applies_multiplier_curve.1 ⟨100, 1500, TimerState.distorted, 40⟩ 6 rfl,
   tick_applies_multiplier_curve.2.2.1 40 (by norm_num) (by norm_num)⟩

/-! ## C2: reverse time has no upper clamp -/

/-- C2 (failing input): a distorted timer at distortion 96 with
`remaining = initialTime = 1500` ticked 10 real seconds gains exactly the
10 real seconds, ending at 1510, strictly above the configured initial
duration 1500 — the code applies no upper clamp, contrary to the claim. -/
theorem reverse_tick_exceeds_initial_duration :
    (tick 10 ⟨1500, 1500, TimerState.distorted, 96⟩).timeRemaining = 1500 + 10
    ∧ (tick 10 ⟨1500, 1500, TimerState.distorted, 96⟩).initialTime
        < (tick 10 ⟨1500, 1500, TimerState.distorted, 96⟩).timeRemaining := by
  constructor
  · norm_num [tick, timeMultiplier]
  · norm_num [tick, timeMultiplier]

/-! ## C3: double completion double-counts -/

/-- C3 (failing input): completing the same task `t1` twice increments
`totalTasksCompleted` from 0 to 2, not to 1 — `completeTask` increments
unconditionally, with no already-completed guard. -/
theorem completeTask_twice_increments_twice :
    storeOneTask.productivityStats.totalTasksCompleted = 0
    ∧ (completeTask "t1" 100 storeOneTask).productivityStats.totalTasksCompleted = 1
    ∧ (completeTask "t1" 200 (completeTask "t1" 100
        storeOneTask)).productivityStats.totalTasksCompleted = 2
    ∧ ((completeTask "t1" 100 storeOneTask).tasks.map Task.status)
        = [TaskStatus.completed] := by
  decide

/-! ## C4: the sixth procrastinate call is not a no-op -/

/-- One `handleProcrastinate` press on `t1` at time `now`. -/
def procrastinateStep (now : Nat) (s : TaskStore) : TaskStore :=
  handleProcrastinate "t1" now s

/-- The store after four procrastinate presses on the fresh task. -/
def storeAfter4 : TaskStore :=
  procrastinateStep 400 (procrastinateStep 300 (procrastinateStep 200
    (procrastinateStep 100 storeOneTask)))

/-- The store after the fifth press (at time 500). -/
def storeAfter5 : TaskStore := procrastinateStep 500 storeAfter4

/-- The store after the sixth press (at time 600). -/
def storeAfter6 : TaskStore := procrastinateStep 600 storeAfter5

/-- C4 (failing input): four presses leave the task pending at level 80;
the fifth press makes it run away (unlocking procrastination-master with
`unlockedAt = 500`); but the sixth press is NOT a no-op: it re-enters
`makeTaskRunAway`, re-fires `updateAchievement`, and overwrites
`unlockedAt` to 600, so the store changes. -/
theorem sixth_procrastinate_changes_the_store :
    (storeAfter4.tasks.map fun t => (t.status, t.procrastinationLevel))
        = [(TaskStatus.pending, 80)]
    ∧ (storeAfter5.tasks.map fun t => (t.status, t.procrastinationLevel))
        = [(TaskStatus.runningAway, 80)]
    ∧ (getAchievement storeAfter4 "procrastination-master").map Achievement.isUnlocked
        = some false
    ∧ (getAchievement storeAfter5 "procrastination-master").map
        (fun a => (a.isUnlocked, a.unlockedAt)) = some (true, some 500)
    ∧ (getAchievement storeAfter6 "procrastination-master").map
        (fun a => (a.isUnlocked, a.unlockedAt)) = some (true, some 600)
    ∧ storeAfter6 ≠ storeAfter5 := by
  decide

/-! ## C5: a second unlock overwrites unlockedAt -/

/-- C5 (failing input): unlocking `first-task` at time 100 sets
`unlockedAt = 100`; unlocking it again at time 200 overwrites
`unlockedAt` to 200 (so it is not left unchanged), although `isUnlocked`
stays true. -/
theorem second_unlock_overwrites_unlockedAt :
    ((getAchievement (updateAchievement "first-task" 100 initialStore) "first-task").map
        (fun a => (a.isUnlocked, a.unlockedAt))) = some (true, some 100)
    ∧ ((getAchievement (updateAchievement "first-task" 200
          (updateAchievement "first-task" 100 initialStore)) "first-task").map
        (fun a => (a.isUnlocked, a.unlockedAt))) = some (true, some 200)
    ∧ updateAchievement "first-task" 200 (updateAchievement "first-task" 100 initialStore)
        ≠ updateAchievement "first-task" 100 initialStore := by
  decide

/-! ## C6: terminal statuses under the store operations -/

/-- `task1` already completed. -/
def completedTask1 : Task :=
  { task1 with status := TaskStatus.completed, completedAt := some 50 }

/-- A store holding the completed task. -/
def storeCompletedTask : TaskStore := { initialStore with tasks := [completedTask1] }

/-- An `updateTask` patch that sets the status back to pending. -/
def pendingStatusPatch : TaskPatch :=
  { TaskPatch.empty with status := some TaskStatus.pending }

/-- Pairwise status preservation: each task of `l` maps to the task at
the same position of `l'`, and terminality of its status survives. -/
def StatusesStayTerminal (l lNew : List Task) : Prop :=
  List.Forall₂ (fun t0 t1 : Task => IsTerminal t0.status → IsTerminal t1.status) l lNew

theorem forall₂_map_self {α : Type} (R : α → α → Prop) (f : α → α) (l : List α)
    (h : ∀ x ∈ l, R x (f x)) : List.Forall₂ R l (l.map f) := by
  induction l with
  | nil => exact List.Forall₂.nil
  | cons a tl ih =>
    exact List.Forall₂.cons (h a (by simp)) (ih fun x hx => h x (by simp [hx]))

theorem statusPreserve_updateTask (s : TaskStore) (id : String) (patch : TaskPatch)
    (hp : patch.status = none) :
    StatusesStayTerminal s.tasks (updateTask id patch s).tasks := by
  have hT : (updateTask id patch s).tasks
      = s.tasks.map fun t => if t.id = id then applyPatch t patch else t := rfl
  rw [hT]
  apply forall₂_map_self
  intro x _ ht
  by_cases hx : x.id = id
  · simpa [hx, applyPatch, hp] using ht
  · simpa [hx] using ht

theorem statusPreserve_completeTask (s : TaskStore) (id : String) (now : Nat) :
    StatusesStayTerminal s.tasks (completeTask id now s).tasks := by
  have hT : (completeTask id now s).tasks
      = s.tasks.map fun t =>
          if t.id = id then { t with status := TaskStatus.completed, completedAt := some now }
          else t := rfl
  rw [hT]
  apply forall₂_map_self
  intro x _ ht
  by_cases hx : x.id = id
  · simp [hx, IsTerminal]
  · simpa [hx] using ht

theorem statusPreserve_makeTaskRunAway (s : TaskStore) (id : String) (now : Nat) :
    StatusesStayTerminal s.tasks (makeTaskRunAway id now s).tasks := by
  have hT : (makeTaskRunAway id now s).tasks
      = s.tasks.map fun t =>
          if t.id = id then { t with status := TaskStatus.runningAway } else t := rfl
  rw [hT]
  apply forall₂_map_self
  intro x _ ht
  by_cases hx : x.id = id
  · simp [hx, IsTerminal]
  · simpa [hx] using ht

theorem statusPreserve_handleProcrastinate (s : TaskStore) (taskId : String) (now : Nat) :
    StatusesStayTerminal s.tasks (handleProcrastinate taskId now s).tasks := by
  rcases hfind : s.tasks.find? (fun t => t.id = taskId) with _ | task
  · have h : handleProcrastinate taskId now s = s := by
      unfold handleProcrastinate
      rw [hfind]
    rw [h]
    exact List.forall₂_same.mpr fun x _ => id
  · have h : handleProcrastinate taskId now s =
        if 100 ≤ min 100 (task.procrastinationLevel + 20) then
          makeTaskRunAway taskId now s
        else updateTask taskId
          { TaskPatch.empty with
            procrastinationLevel := some (min 100 (task.procrastinationLevel + 20)) } s := by
      unfold handleProcrastinate
      rw [hfind]
    rw [h]
    by_cases hlvl : 100 ≤ min 100 (task.procrastinationLevel + 20)
    · rw [if_pos hlvl]
      exact statusPreserve_makeTaskRunAway s taskId now
    · rw [if_neg hlvl]
      exact statusPreserve_updateTask s taskId _ rfl

/-- C6 (counterexample): the claim is false as stated — `updateTask` with
a patch carrying a `status` field moves a completed task straight back to
pending. -/
theorem updateTask_status_patch_escapes_terminal :
    IsTerminal completedTask1.status
    ∧ ((updateTask "t1" pendingStatusPatch storeCompletedTask).tasks.map Task.status)
        = [TaskStatus.pending]
    ∧ ¬ IsTerminal TaskStatus.pending := by
  decide

/-- C6 (amended): terminal statuses are preserved position-wise by
`completeTask`, `makeTaskRunAway`, `handleProcrastinate`, and by
`updateTask` whenever the patch carries no `status` field; `deleteTask`
only ever removes tasks (every surviving task was already in the store,
unchanged).  Only `updateTask` with an explicit `status` entry in the
patch can move a terminal task back to pending/in-progress. -/
theorem terminal_status_preserved_without_status_patch :
    ∀ (s : TaskStore) (id : String) (now : Nat) (patch : TaskPatch),
      patch.status = none →
      StatusesStayTerminal s.tasks (updateTask id patch s).tasks
      ∧ StatusesStayTerminal s.tasks (completeTask id now s).tasks
      ∧ StatusesStayTerminal s.tasks (makeTaskRunAway id now s).tasks
      ∧ StatusesStayTerminal s.tasks (handleProcrastinate id now s).tasks
      ∧ ∀ t ∈ (deleteTask id s).tasks, t ∈ s.tasks := by
  intro s id now patch hp
  refine ⟨statusPreserve_updateTask s id patch hp,
          statusPreserve_completeTask s id now,
          statusPreserve_makeTaskRunAway s id now,
          statusPreserve_handleProcrastinate s id now,
          ?_⟩
  intro t ht
  have hT : (deleteTask id s).tasks = s.tasks.filter fun t => t.id ≠ id := rfl
  rw [hT] at ht
  exact List.mem_of_mem_filter ht

/-- Witness for the amended C6 at the concrete completed-task store with
the empty patch. -/
theorem terminal_status_preserved_without_status_patch_witness :
    StatusesStayTerminal storeCompletedTask.tasks
        (updateTask "t1" TaskPatch.empty storeCompletedTask).tasks
    ∧ StatusesStayTerminal storeCompletedTask.tasks
        (completeTask "t1" 100 storeCompletedTask).tasks
    ∧ StatusesStayTerminal storeCompletedTask.tasks
        (makeTaskRunAway "t1" 100 storeCompletedTask).tasks
    ∧ StatusesStayTerminal storeCompletedTask.tasks
        (handleProcrastinate "t1" 100 storeCompletedTask).tasks
    ∧ ∀ t ∈ (deleteTask "t1" storeCompletedTask).tasks, t ∈ storeCompletedTask.tasks :=
  terminal_status_preserved_without_status_patch storeCompletedTask "t1" 100
    TaskPatch.empty rfl

/-! ## C7: startFocusSession has no already-active guard -/

/-- An already-active session. -/
def activeSession1 : FocusSession :=
  { id := "s1", taskId := "t1", startTime := 0, endTime := none
  , duration := 0, distortionLevel := 0 }

/-- The one-task store with `activeSession1` open. -/
def storeWithActiveSession : TaskStore :=
  { storeOneTask with
    currentSession := some activeSession1
  , currentFocusState := FocusState.focus }

/-- C7 (counterexample): with a session already active,
`startFocusSession` is not a no-op — it silently replaces the active
session with a fresh one, discarding the old session unrecorded. -/
theorem startFocusSession_replaces_active_session :
    storeWithActiveSession.currentSession = some activeSession1
    ∧ (startFocusSession "t1" "u2" 5000 storeWithActiveSession).currentSession
        = some { id := "u2", taskId := "t1", startTime := 5000, endTime := none
               , duration := 0, distortionLevel := 0 }
    ∧ startFocusSession "t1" "u2" 5000 storeWithActiveSession ≠ storeWithActiveSession
    ∧ (startFocusSession "t1" "u2" 5000 storeWithActiveSession).focusSessions = [] := by
  decide

/-- C7 (amended): `startFocusSession` unconditionally installs a fresh
session with `startTime = now` and `distortionLevel = 0` as the sole
current session (so at most one session is ever active, because the slot
is overwritten rather than guarded), sets the focus state to `focus`, and
leaves every other store field unchanged; any previously active session
is discarded without being closed. -/
theorem startFocusSession_always_opens_fresh_session :
    ∀ (s : TaskStore) (taskId uuid : String) (now : Nat),
      (startFocusSession taskId uuid now s).currentSession
          = some { id := uuid, taskId := taskId, startTime := now, endTime := none
                 , duration := 0, distortionLevel := 0 }
      ∧ (startFocusSession taskId uuid now s).currentFocusState = FocusState.focus
      ∧ (startFocusSession taskId uuid now s).tasks = s.tasks
      ∧ (startFocusSession taskId uuid now s).focusSessions = s.focusSessions
      ∧ (startFocusSession taskId uuid now s).productivityStats = s.productivityStats
      ∧ (startFocusSession taskId uuid now s).achievements = s.achievements := by
  intro s taskId uuid now
  exact ⟨rfl, rfl, rfl, rfl, rfl, rfl⟩

/-! ## C8: endFocusSession never updates streaks -/

/-- C8 (failing input): closing the active session (10000 real seconds
long, i.e. a day with one closed session) leaves `currentStreak`,
`longestStreak` and `lastActiveDay` exactly as they were — the streak
logic the claim describes does not exist in `endFocusSession`, which only
accumulates `totalTimeSpent` and closes the session. -/
theorem endFocusSession_leaves_streaks_untouched :
    (endFocusSession 10000000 storeWithActiveSession).focusSessions.length = 1
    ∧ (endFocusSession 10000000 storeWithActiveSession).currentSession = none
    ∧ (endFocusSession 10000000 storeWithActiveSession).productivityStats.currentStreak = 0
    ∧ (endFocusSession 10000000 storeWithActiveSession).productivityStats.longestStreak = 0
    ∧ (endFocusSession 10000000 storeWithActiveSession).productivityStats.lastActiveDay
        = none := by
  decide

/-- Supporting general fact: for every store and closing time, the streak
fields and `lastActiveDay` of the stats are unchanged by
`endFocusSession`. -/
theorem endFocusSession_streak_fields_constant :
    ∀ (s : TaskStore) (now : Nat),
      (endFocusSession now s).productivityStats.currentStreak
          = s.productivityStats.currentStreak
      ∧ (endFocusSession now s).productivityStats.longestStreak
          = s.productivityStats.longestStreak
      ∧ (endFocusSession now s).productivityStats.lastActiveDay
          = s.productivityStats.lastActiveDay := by
  intro s now
  unfold endFocusSession
  refine ⟨?_, ?_, ?_⟩ <;> (repeat' split) <;> dsimp only <;> (repeat' split) <;> rfl

/-! ## C9: unknown-id operations -/

/-- C9 (failing input): `completeTask` on an id present nowhere in the
store ("ghost") leaves the task list alone but still increments
`totalTasksCompleted` from 0 to 1 — the store state changes, so the
operation does not degrade to a no-op.  (`updateTask`, `deleteTask` and
`handleProcrastinate` on the same unknown id do leave the store
unchanged.) -/
theorem completeTask_unknown_id_mutates_stats :
    (completeTask "ghost" 100 storeOneTask).tasks = storeOneTask.tasks
    ∧ storeOneTask.productivityStats.totalTasksCompleted = 0
    ∧ (completeTask "ghost" 100 storeOneTask).productivityStats.totalTasksCompleted = 1
    ∧ completeTask "ghost" 100 storeOneTask ≠ storeOneTask
    ∧ updateTask "ghost" pendingStatusPatch storeOneTask = storeOneTask
    ∧ deleteTask "ghost" storeOneTask = storeOneTask
    ∧ handleProcrastinate "ghost" 100 storeOneTask = storeOneTask := by
  decide

/-! ## C10: setDistortionLevel with no active session -/

/-- C10: for every level, `setDistortionLevel` with no active session
leaves the entire store state unchanged — the body is guarded on
`currentSession`, so no distortion level is recorded and
`currentFocusState` keeps its previous value. -/
theorem setDistortionLevel_no_session_noop :
    ∀ (level : ℚ) (s : TaskStore), s.currentSession = none →
      setDistortionLevel level s = s := by
  intro level s h
  unfold setDistortionLevel
  rw [h]

/-- Witness for C10 at level 77 on the initial store. -/
theorem setDistortionLevel_no_session_noop_witness :
    setDistortionLevel 77 initialStore = initialStore :=
  setDistortionLevel_no_session_noop 77 initialStore rfl

end Timewarp
